import Mathlib

/-!
Shallow embedding of the HealthMate workflow orchestration layer
(backend/workflows/healthinfo_workflow.py, outbreak_workflow.py,
postdischarge_workflow.py and backend/tools/mcp_tools_registry.py).

Modelling conventions:
* Python strings are Lean `String`; `None` is `Option.none`; Python truthiness
  of optional strings is `optStrTruthy` (both `None` and `""` are falsy).
* Dynamically-typed result dictionaries returned by the tool adapters are
  modelled by `JDict` (association lists) whose values are `JVal`
  (a string, a list of strings, or null) -- the shapes actually produced by
  the repository's API clients and by the workflows' own error records.
  Dictionary values outside this universe (numbers, nested containers) do not
  occur in the repository's data and are outside the model.
* External collaborators (the LangChain agent / LLM, the MCP tool transport,
  the HTTP API clients, and `json.loads` applied to raw model output) are
  black boxes per the spec; they are passed in as explicit function
  parameters, so a workflow run is a pure function of the initial input and
  of the collaborators' responses.
* Log statements, the unused `messages` field and the outbreak `debug_log`
  bookkeeping field are omitted: no control flow depends on them.
-/

/-- Python truthiness of an optional string: `None` and `""` are falsy. -/
def optStrTruthy : Option String → Bool
  | none => false
  | some s => s ≠ ""

/-- `startsWithL needle l`: `l` begins with `needle` (character lists). -/
def startsWithL : List Char → List Char → Bool
  | [], _ => true
  | _ :: _, [] => false
  | a :: as, b :: bs => a == b && startsWithL as bs

/-- `containsL needle l`: `needle` occurs as a contiguous sublist of `l`. -/
def containsL (needle : List Char) : List Char → Bool
  | [] => needle.isEmpty
  | c :: t => startsWithL needle (c :: t) || containsL needle t

/-- Python `needle in haystack` substring test. -/
def pyIn (needle haystack : String) : Bool :=
  containsL needle.toList haystack.toList

/-- The suffix after the first occurrence of `needle`, if any. -/
def afterFirstL (needle : List Char) : List Char → Option (List Char)
  | [] => if needle.isEmpty then some [] else none
  | c :: t =>
      if startsWithL needle (c :: t) then some ((c :: t).drop needle.length)
      else afterFirstL needle t

/-- Python `s.split(kw, 1)[-1]`: everything after the first occurrence of
`kw` (the whole string when `kw` does not occur). -/
def splitOnceAfter (s kw : String) : String :=
  match afterFirstL kw.toList s.toList with
  | some rest => String.mk rest
  | none => s

/-- Python `s.lower()`. -/
def pyLower (s : String) : String := String.mk (s.toList.map Char.toLower)

/-- Python `s.strip()` (whitespace strip). -/
def pyStrip (s : String) : String :=
  String.mk (((s.toList.dropWhile Char.isWhitespace).reverse.dropWhile
    Char.isWhitespace).reverse)

/-- Python `s.strip(chars)`: strip the given characters from both ends. -/
def pyStripChars (s : String) (chars : List Char) : String :=
  String.mk (((s.toList.dropWhile (chars.contains ·)).reverse.dropWhile
    (chars.contains ·)).reverse)

/-- Python `(current_error + msg).strip()` where `current_error` is the
value of `state.get("error_message", "")`.  The `error_message` key is
present (set to `None` at initialization), so when no error has been
recorded the retrieved value is `None` and the concatenation raises
`TypeError`; with a recorded error string it strips the concatenation. -/
def pyAddStrip : Option String → String → Except String String
  | some e, msg => .ok (pyStrip (e ++ msg))
  | none, _ => .error
      "TypeError: unsupported operand type(s) for +: \x27NoneType\x27 and \x27str\x27"

/-- Split a character list at every character satisfying `p`, keeping empty
pieces (the behaviour of Python `s.split(c)` for a one-character
separator). -/
def splitPred (p : Char → Bool) : List Char → List (List Char)
  | [] => [[]]
  | c :: t =>
      match splitPred p t with
      | [] => [[]]
      | g :: gs => if p c then [] :: g :: gs else (c :: g) :: gs

/-- Python `s.split(" ")`: split on single spaces, keeping empty pieces. -/
def pySplitSpace (s : String) : List String :=
  (splitPred (· == ' ') s.toList).map String.mk

/-- Python `s.split()`: split on whitespace runs, dropping empty pieces. -/
def pySplitWs (s : String) : List String :=
  ((splitPred Char.isWhitespace s.toList).map String.mk).filter (· ≠ "")

/-- Python `s[:n]` for a string. -/
def pyTake (s : String) (n : Nat) : String := String.mk (s.toList.take n)

/-- Python `s.startswith(pre)`. -/
def startsWithS (s pre : String) : Bool := startsWithL pre.toList s.toList

/-- Python `s.isalnum()`: non-empty and every character alphanumeric. -/
def pyIsAlnum (s : String) : Bool :=
  s ≠ "" && s.toList.all Char.isAlphanum

/-- A dynamically-typed dictionary value: a string, a list of strings, or
JSON null / Python `None`. -/
inductive JVal where
  | jstr (s : String)
  | jlist (xs : List String)
  | jnull
  deriving DecidableEq, Repr

/-- A dynamically-typed dictionary (Python `dict` with string keys). -/
abbrev JDict := List (String × JVal)

/-- Python `d.get(k)` (default `None`). -/
def jget (d : JDict) (k : String) : Option JVal :=
  (List.find? (fun p => p.1 == k) d).map Prod.snd

/-- Python truthiness of a `d.get(k)` result. -/
def jtruthy : Option JVal → Bool
  | none => false
  | some (.jstr s) => s ≠ ""
  | some (.jlist xs) => xs ≠ []
  | some .jnull => false

/-- Python `k in d` (dictionary key membership). -/
def jHasKey (d : JDict) (k : String) : Bool :=
  List.any d (fun p => p.1 == k)

/-- Python `d.get(k, dflt)` where the call site expects a string value;
non-string values are outside the modelled adapter contract. -/
def getStrD (d : JDict) (k dflt : String) : String :=
  match jget d k with
  | some (.jstr s) => s
  | _ => dflt

/-- Python `d.get(k, .jstr dflt)` keeping the dynamic value. -/
def jgetD (d : JDict) (k : String) (dflt : String) : JVal :=
  (jget d k).getD (.jstr dflt)

/-- Rendering of a dynamic value inside an f-string (`None` prints as
`None`, lists print with Python repr quoting). -/
def pyFStr : JVal → String
  | .jstr s => s
  | .jnull => "None"
  | .jlist xs =>
      "[" ++ String.intercalate ", " (xs.map (fun x => "\x27" ++ x ++ "\x27")) ++ "]"

/-- JSON string escaping as performed by `json.dumps` (scope: the escapes
relevant to the repository's ASCII data). -/
def jsonEscape (s : String) : String :=
  s.toList.foldl (fun acc c =>
    acc ++ (if c = '\\' then "\\\\"
            else if c = '"' then "\\\""
            else if c = '\n' then "\\n"
            else if c = '\t' then "\\t"
            else if c = '\r' then "\\r"
            else String.singleton c)) ""

/-- `n` spaces, for `json.dumps(..., indent=2)` layout. -/
def spaces (n : Nat) : String := String.mk (List.replicate n ' ')

/-- `json.dumps` of a primitive/list value at indentation `ind`. -/
def dumpJVal : JVal → Nat → String
  | .jstr s, _ => "\"" ++ jsonEscape s ++ "\""
  | .jnull, _ => "null"
  | .jlist [], _ => "[]"
  | .jlist xs, ind =>
      "[\n" ++
        String.intercalate ",\n"
          (xs.map (fun x => spaces (ind + 2) ++ "\"" ++ jsonEscape x ++ "\"")) ++
        "\n" ++ spaces ind ++ "]"

/-- `json.dumps(d, indent=2)` of a dictionary at indentation `ind`. -/
def dumpJDict (d : JDict) (ind : Nat) : String :=
  if d = ([] : JDict) then "\x7b\x7d"
  else
    "\x7b\n" ++
      String.intercalate ",\n"
        (List.map (fun p => spaces (ind + 2) ++ "\"" ++ jsonEscape p.1 ++ "\": " ++
          dumpJVal p.2 (ind + 2)) d) ++
      "\n" ++ spaces ind ++ "\x7d"

/-- `json.dumps(l, indent=2)` of a list of dictionaries at indentation `ind`. -/
def dumpJDictList (l : List JDict) (ind : Nat) : String :=
  if l = [] then "[]"
  else
    "[\n" ++
      String.intercalate ",\n"
        (l.map (fun d => spaces (ind + 2) ++ dumpJDict d (ind + 2))) ++
      "\n" ++ spaces ind ++ "]"

/-- Python `repr` of a dictionary (only reached for `None`/`\x7b\x7d`-shaped
data in the modelled paths). -/
def pyReprJDict (d : JDict) : String :=
  if d = ([] : JDict) then "\x7b\x7d"
  else
    "\x7b" ++
      String.intercalate ", "
        (List.map (fun p => "\x27" ++ p.1 ++ "\x27: " ++
          (match p.2 with
           | .jstr s => "\x27" ++ s ++ "\x27"
           | .jnull => "None"
           | .jlist xs =>
               "[" ++ String.intercalate ", "
                 (xs.map (fun x => "\x27" ++ x ++ "\x27")) ++ "]")) d) ++
    "\x7d"

/-! ### Tool adapter layer (backend/tools/mcp_tools_registry.py)

Each adapter takes its underlying API-client function as an explicit
parameter (the clients are external collaborators). -/

/-- `tool_search_pubmed`: validates the query, corrects `max_results`, then
delegates to the PubMed client. -/
def tool_search_pubmed (fetch_pubmed_articles : String → Int → List JDict)
    (query : String) (max_results : Int) : List JDict :=
  if pyStrip query = "" then
    [[("error", .jstr "Invalid input: \x27query\x27 must be a non-empty string.")]]
  else
    let max_results := if max_results ≤ 0 then 3 else max_results
    fetch_pubmed_articles query max_results

/-- `tool_get_fda_drug_info`: validates the drug name, delegates to the
OpenFDA client, and converts a `None` client result into an error record. -/
def tool_get_fda_drug_info (fetch_fda_drug_info : String → Option JDict)
    (drug_name : String) : JDict :=
  if pyStrip drug_name = "" then
    [("error", .jstr "Invalid input: \x27drug_name\x27 must be a non-empty string.")]
  else
    match fetch_fda_drug_info drug_name with
    | none => [("drug_name_queried", .jstr drug_name),
               ("error", .jstr "No information found or API unavailable.")]
    | some result => result

/-- `tool_get_health_gov_topic`: validates the topic query, delegates to the
Health.gov client, and converts a `None` client result into an error record. -/
def tool_get_health_gov_topic (fetch_health_gov_topic : String → Option JDict)
    (topic_query : String) : JDict :=
  if pyStrip topic_query = "" then
    [("error", .jstr "Invalid input: \x27topic_query\x27 must be a non-empty string.")]
  else
    match fetch_health_gov_topic topic_query with
    | none => [("topic_queried", .jstr topic_query),
               ("error", .jstr "Topic not found or information unavailable.")]
    | some result => result

/-- The fixed symptom keyword list of `tool_analyze_text_for_symptoms`. -/
def symptom_keywords : List String :=
  ["fever", "cough", "sore throat", "headache", "fatigue", "rash", "nausea",
   "vomiting", "diarrhea", "shortness of breath", "body ache", "chills",
   "congestion", "runny nose", "loss of taste", "loss of smell", "dizziness",
   "unusual bleeding", "swelling"]

/-- The generic signal appended when no specific symptom keyword matches but
the text looks like a report. -/
def generalConcernSignal : String := "general concern signal (non-specific)"

/-- The keyword-spotting core of `tool_analyze_text_for_symptoms` on a
string input.  (Python builds `symptoms_found` by iterating the keyword list
and appending matches, which equals a `filter`; `list(set(...))` is modelled
as `List.dedup` -- the found list already has no duplicates.) -/
structure SymptomAnalysis where
  symptoms_detected : List String
  original_text_preview : String
  deriving DecidableEq, Repr

def analyzeSymptomsCore (text : String) : SymptomAnalysis :=
  let text_lower := pyLower text
  let symptoms_found := symptom_keywords.filter (fun kw => pyIn kw text_lower)
  let symptoms_found :=
    if symptoms_found = [] &&
       (pyIn "report" text_lower || pyIn "outbreak" text_lower ||
        pyIn "unusual illness" text_lower)
    then [generalConcernSignal]
    else symptoms_found
  { symptoms_detected := symptoms_found.dedup
    original_text_preview :=
      if text.length > 100 then pyTake text 100 ++ "..." else text }

/-- A Python argument that is either a string or some non-string value
(carrying only its repr); used for the `isinstance(text, str)` check. -/
inductive PyArg where
  | pstr (s : String)
  | nonstr (r : String)
  deriving DecidableEq, Repr

/-- `tool_analyze_text_for_symptoms`: rejects non-string input with an error
record, otherwise returns the keyword-analysis record (empty strings are
deliberately allowed). -/
def tool_analyze_text_for_symptoms : PyArg → JDict
  | .nonstr _ => [("error", .jstr "Invalid input: \x27text\x27 must be a string.")]
  | .pstr t =>
      let r := analyzeSymptomsCore t
      [("symptoms_detected", .jlist r.symptoms_detected),
       ("original_text_preview", .jstr r.original_text_preview)]

/-! ### HealthInfo workflow (backend/workflows/healthinfo_workflow.py) -/

/-- The outcome of one LangChain-agent invocation: an exception with its
message, or the response string extracted from the agent output (`""` when
no usable response string was extracted). -/
inductive AgentOutcome where
  | exn (msg : String)
  | resp (s : String)
  deriving DecidableEq, Repr

/-- The two fields read from the JSON object parsed out of the query
refinement agent's raw response (`None`/absent modelled as `none`). -/
structure RefinedData where
  search_query_for_pubmed : Option String
  extracted_drug_name : Option String
  deriving DecidableEq, Repr

/-- The outcome of `await fda_tool.ainvoke(...)` in the fetch node:
a returned dict, a returned non-dict (carrying its str repr), or a raised
exception. -/
inductive FdaCall where
  | ret (d : JDict)
  | retOther (r : String)
  | exn (msg : String)

/-- The outcome of `await pubmed_tool.ainvoke(...)` in the fetch node. -/
inductive PubmedCall where
  | ret (l : List JDict)
  | retOther (r : String)
  | exn (msg : String)

/-- The external collaborators of one HealthInfo workflow run: the MCP tool
set, the two tool invocations, the two agent invocations (each a function of
the human-input prompt sent to it) and `json.loads` applied to the span cut
out of the refinement agent's output. -/
structure W2Env where
  toolsLoaded : Bool
  fdaToolPresent : Bool
  pubmedToolPresent : Bool
  refineCreate : Option String
  refineInvoke : String → AgentOutcome
  jsonLoads : String → Option RefinedData
  fdaInvoke : String → FdaCall
  pubmedInvoke : String → PubmedCall
  synthCreate : Option String
  synthInvoke : String → AgentOutcome

/-- `HealthInfoWorkflowState` (the `messages` field, never read, is
omitted). -/
structure HealthInfoWorkflowState where
  user_query : String
  is_misinfo_check : Bool
  claim_to_check : Option String
  search_query_for_tools : Option String
  fda_info_result : Option JDict
  pubmed_research_results : Option (List JDict)
  extracted_drug_name : Option String
  synthesized_answer : Option String
  vetting_conclusion : Option String
  error_message : Option String
  deriving DecidableEq, Repr

/-- The input-category fields supplied by the caller. -/
structure W2Input where
  user_query : String
  is_misinfo_check : Bool
  claim_to_check : Option String
  deriving DecidableEq, Repr

/-- `w2_initialize_state`. -/
def w2_init_state (initial_input : W2Input) : HealthInfoWorkflowState :=
  { user_query := initial_input.user_query
    is_misinfo_check := initial_input.is_misinfo_check
    claim_to_check := initial_input.claim_to_check
    search_query_for_tools := none
    fda_info_result := none
    pubmed_research_results := some []
    extracted_drug_name := none
    synthesized_answer := none
    vetting_conclusion := none
    error_message := none }

/-- The fixed trigger-phrase list of the heuristic preprocessor. -/
def drug_keywords : List String :=
  ["side effects of", "what is", "tell me about", "information on", "info on",
   "about", "drug", "medication"]

/-- The trigger-phrase loop of `w2_preprocess_query_node`: for the first
phrase occurring in the query whose following two-token window passes the
length bound, return that window; otherwise keep scanning. -/
def w2ExtractFromKeywords (query : String) : List String → Option String
  | [] => none
  | kw :: rest =>
      if pyIn kw query then
        let potential_drug_parts := pySplitSpace (pyStrip (splitOnceAfter query kw))
        let potential_drug :=
          pyStripChars (String.intercalate " " (potential_drug_parts.take 2))
            ['?', '.', '!']
        if 3 < potential_drug.length && potential_drug.length < 30 then
          some potential_drug
        else w2ExtractFromKeywords query rest
      else w2ExtractFromKeywords query rest

/-- The whole-query fallback of `w2_preprocess_query_node`: a short (at most
two words) alphanumeric query not in the common-term stoplist is itself the
candidate drug name. -/
def w2WholeQueryCandidate (query : String) : Option String :=
  if (pySplitWs query).length ≤ 2 then
    let possible_drug_query := pyStripChars query ['?', '.', '!']
    if pyIsAlnum possible_drug_query &&
       !(["flu", "cold", "covid", "pain", "stress", "sleep"].contains
          possible_drug_query)
    then some possible_drug_query
    else none
  else none

/-- The candidate entity extracted by the heuristic preprocessor: the
trigger-phrase window when one qualifies, otherwise the whole-query
fallback. -/
def w2ExtractedDrugOf (query : String) : Option String :=
  match w2ExtractFromKeywords query drug_keywords with
  | some d => some d
  | none => w2WholeQueryCandidate query

/-- `w2_preprocess_query_node`. -/
def w2_preprocess_query_node (state : HealthInfoWorkflowState) :
    HealthInfoWorkflowState :=
  let query := pyLower state.user_query
  if query = "" then
    { state with error_message := some "User query is empty." }
  else
    match w2ExtractedDrugOf query with
    | some d => { state with extracted_drug_name := some d }
    | none => state

/-- Python `llm_response_str[json_start:json_end]` where
`json_start = find('\x7b')` and `json_end = rfind('\x7d') + 1`; `none` when the
guard `json_start != -1 and json_end != -1 and json_end > json_start`
fails. -/
def braceSpan (s : String) : Option String :=
  let cs := s.toList
  match cs.findIdx? (· = Char.ofNat 123) with
  | none => none
  | some json_start =>
      match cs.reverse.findIdx? (· = Char.ofNat 125) with
      | none => none
      | some revIdx =>
          let json_end := (cs.length - 1 - revIdx) + 1
          if json_end > json_start then
            some (String.mk ((cs.drop json_start).take (json_end - json_start)))
          else none

/-- The non-destructive drug-name fallback inside the refinement node,
applied when the parsed JSON supplies no (truthy) drug name. -/
def w2FallbackDrug (state : HealthInfoWorkflowState)
    (initial_drug_guess : Option String) : HealthInfoWorkflowState :=
  if optStrTruthy initial_drug_guess &&
     !(optStrTruthy state.search_query_for_tools) then
    { state with extracted_drug_name := initial_drug_guess }
  else
    { state with extracted_drug_name := none }

/-- The JSON-processing block of `w2_llm_query_refinement_node` applied to a
non-empty raw agent response.  The no-JSON and parse-failure branches append
to the accumulated error, which raises when no error string was recorded. -/
def w2ProcessRefinement (env : W2Env) (current_error : Option String)
    (user_q : String) (initial_drug_guess : Option String)
    (llm_response_str : String) (state : HealthInfoWorkflowState) :
    Except String HealthInfoWorkflowState :=
  match braceSpan llm_response_str with
  | some json_str =>
      match env.jsonLoads json_str with
      | some refined_data =>
          let state := { state with
            search_query_for_tools := refined_data.search_query_for_pubmed }
          if optStrTruthy refined_data.extracted_drug_name then
            .ok { state with
              extracted_drug_name := refined_data.extracted_drug_name }
          else
            .ok (w2FallbackDrug state initial_drug_guess)
      | none =>
          match pyAddStrip current_error
              " Error parsing agent response for query refinement." with
          | .error te => .error te
          | .ok m =>
              .ok { state with
                search_query_for_tools := some user_q
                error_message := some m }
  | none =>
      match pyAddStrip current_error
          " Agent failed to provide a structured search query (no JSON found)." with
      | .error te => .error te
      | .ok m =>
          .ok { state with
            search_query_for_tools := some user_q
            error_message := some m }

/-- The human-input prompt sent to the query refinement agent. -/
def w2RefinePrompt (user_q : String) (initial_drug_guess : Option String) :
    String :=
  "User health query: \"" ++ user_q ++ "\"" ++
    (match initial_drug_guess with
     | some g => "\n(Initial pre-processing suggested a potential drug: \"" ++
         g ++ "\". Please confirm or refine.)"
     | none => "")

/-- `w2_llm_query_refinement_node`.  `current_error` is
`state.get("error_message", "")`, which is `None` whenever no error has been
recorded; every error-append on such a state raises `TypeError` and the run
aborts. -/
def w2_llm_query_refinement_node (env : W2Env)
    (state : HealthInfoWorkflowState) :
    Except String HealthInfoWorkflowState :=
  let current_error := state.error_message
  if optStrTruthy current_error then .ok state
  else if !env.toolsLoaded then
    match pyAddStrip current_error
        " Critical error: Tools not loaded for query refinement." with
    | .error te => .error te
    | .ok m =>
        .ok { state with
          error_message := some m
          search_query_for_tools := some state.user_query }
  else
    let user_q := state.user_query
    let initial_drug_guess := state.extracted_drug_name
    match env.refineCreate with
    | some e =>
        match pyAddStrip current_error (" Error creating agent: " ++ e) with
        | .error te => .error te
        | .ok m =>
            .ok { state with
              error_message := some m
              search_query_for_tools := some user_q }
    | none =>
        match env.refineInvoke (w2RefinePrompt user_q initial_drug_guess) with
        | .exn e =>
            match pyAddStrip current_error
                (" Error in agent query refinement invocation: " ++ e) with
            | .error te => .error te
            | .ok m =>
                .ok { state with
                  search_query_for_tools := some user_q
                  error_message := some m }
        | .resp llm_response_str =>
            match
              (if llm_response_str = "" then
                match pyAddStrip current_error
                    " Agent returned an empty response string for query refinement." with
                | .error te => .error te
                | .ok m => .ok { state with error_message := some m }
              else
                w2ProcessRefinement env current_error user_q
                  initial_drug_guess llm_response_str state) with
            | .error te => .error te
            | .ok st =>
                .ok (if !(optStrTruthy st.search_query_for_tools) then
                      { st with search_query_for_tools := some user_q }
                    else st)

/-- The effective PubMed query of the fetch node:
`state.get("search_query_for_tools") or state.get("user_query", "")`. -/
def w2QueryForPubmed (state : HealthInfoWorkflowState) : String :=
  if optStrTruthy state.search_query_for_tools then
    state.search_query_for_tools.getD ""
  else state.user_query

/-- Normalization of the FDA tool invocation outcome into the stored
result slot. -/
def w2FdaStore (c : FdaCall) (drug_name_for_fda : String) : JDict :=
  match c with
  | .ret d => d
  | .retOther r =>
      [("error", .jstr "Tool returned non-dict"), ("details", .jstr r),
       ("drug_name_queried", .jstr drug_name_for_fda)]
  | .exn e =>
      [("error", .jstr ("Failed to invoke FDA tool: " ++ e)),
       ("drug_name_queried", .jstr drug_name_for_fda)]

/-- Normalization of the PubMed tool invocation outcome into the stored
result slot. -/
def w2PubmedStore (c : PubmedCall) (query_used : String) : List JDict :=
  match c with
  | .ret l => l
  | .retOther r =>
      [[("error", .jstr "Tool returned non-list"), ("details", .jstr r),
        ("query_used", .jstr query_used)]]
  | .exn e =>
      [[("error", .jstr ("Failed to invoke PubMed tool: " ++ e)),
        ("query_used", .jstr query_used)]]

/-- `w2_fetch_information_node`.  The two error-append branches raise when
no error string has been recorded. -/
def w2_fetch_information_node (env : W2Env)
    (state : HealthInfoWorkflowState) :
    Except String HealthInfoWorkflowState :=
  let current_error := state.error_message
  let cur := current_error.getD ""
  if optStrTruthy current_error &&
     !(pyIn "agent query refinement" cur) &&
     !(pyIn "Tools not loaded" cur) &&
     !(optStrTruthy state.search_query_for_tools) &&
     !(optStrTruthy state.extracted_drug_name) then
    .ok state
  else if !env.toolsLoaded then
    match pyAddStrip current_error
        " Critical error: Tools not loaded for fetching." with
    | .error te => .error te
    | .ok m => .ok { state with error_message := some m }
  else
    let query_for_pubmed := w2QueryForPubmed state
    let drug_name_for_fda := state.extracted_drug_name
    if query_for_pubmed = "" && !(optStrTruthy drug_name_for_fda) then
      match pyAddStrip current_error
          " No usable query for information retrieval." with
      | .error te => .error te
      | .ok m => .ok { state with error_message := some m }
    else
      let state :=
        if optStrTruthy drug_name_for_fda then
          let dn := drug_name_for_fda.getD ""
          if env.fdaToolPresent then
            { state with fda_info_result := some (w2FdaStore (env.fdaInvoke dn) dn) }
          else
            { state with fda_info_result := some (
                [("error", .jstr "FDA tool not available"),
                 ("drug_name_queried", .jstr dn)]) }
        else state
      if query_for_pubmed ≠ "" then
        if env.pubmedToolPresent then
          .ok { state with pubmed_research_results := some (
              w2PubmedStore (env.pubmedInvoke query_for_pubmed) query_for_pubmed) }
        else
          .ok { state with pubmed_research_results := some (
              [[("error", .jstr "PubMed tool not available"),
                ("query_used", .jstr query_for_pubmed)]]) }
      else
        .ok { state with pubmed_research_results := some [] }

/-- The bounded first-element slice
`(fda_info.get(k, ["N/A"])[0] if isinstance(fda_info.get(k), list) and
fda_info.get(k) else "N/A")[:500]` used by the synthesis context builder. -/
def w2Field500 (fda_info : JDict) (k : String) : String :=
  pyTake (match jget fda_info k with
   | some (.jlist (x :: _)) => x
   | _ => "N/A") 500

/-- The reduced OpenFDA dictionary embedded into the synthesis context. -/
def w2FdaContextDict (fda_info : JDict) : JDict :=
  [("drug_name_queried", (jget fda_info "drug_name_queried").getD .jnull),
   ("brand_name", (jget fda_info "brand_name").getD .jnull),
   ("generic_name", (jget fda_info "generic_name").getD .jnull),
   ("indications_and_usage", .jstr (w2Field500 fda_info "indications_and_usage")),
   ("warnings_and_precautions", .jstr (w2Field500 fda_info "warnings_and_precautions"))]

/-- The `context_parts` list assembled by `w2_synthesize_and_vet_node`:
OpenFDA section (or attempt note) first, PubMed section second. -/
def w2ContextParts (state : HealthInfoWorkflowState) : List String :=
  let fdaParts : List String :=
    match state.fda_info_result with
    | some fda_info =>
        if fda_info ≠ ([] : JDict) && !(jtruthy (jget fda_info "error")) then
          ["OpenFDA Information:\n" ++ dumpJDict (w2FdaContextDict fda_info) 0]
        else if optStrTruthy state.extracted_drug_name then
          ["Note: Attempted to find OpenFDA information for \x27" ++
             state.extracted_drug_name.getD "" ++ "\x27. Result: " ++
             (if fda_info ≠ ([] : JDict) then dumpJDict fda_info 0
              else "No information retrieved.")]
        else []
    | none =>
        if optStrTruthy state.extracted_drug_name then
          ["Note: Attempted to find OpenFDA information for \x27" ++
             state.extracted_drug_name.getD "" ++
             "\x27. Result: No information retrieved."]
        else []
  let pubmed_results := state.pubmed_research_results.getD []
  let pubmedParts : List String :=
    if pubmed_results ≠ [] &&
       !(pubmed_results.any (fun res => jtruthy (jget res "error"))) then
      let pubmed_context_list :=
        pubmed_results.enum.map (fun p =>
          "PubMed Article " ++ toString (p.1 + 1) ++ ":\nTitle: " ++
            pyFStr (jgetD p.2 "title" "N/A") ++ "\nSummary: " ++
            pyTake (getStrD p.2 "summary" "N/A") 500)
      if pubmed_context_list ≠ [] then
        ["PubMed Research Highlights:\n" ++
           String.intercalate "\n" pubmed_context_list]
      else []
    else if pubmed_results = [] then
      ["PubMed Research Highlights: No relevant articles were found for the query."]
    else
      ["PubMed Research Highlights: There was an issue retrieving or processing PubMed articles, or no articles found. Data: " ++
         dumpJDictList pubmed_results 0]
  fdaParts ++ pubmedParts

/-- `context_data_str`: the assembled, source-attributed context blob. -/
def w2ContextDataStr (state : HealthInfoWorkflowState) : String :=
  let context_parts := w2ContextParts state
  if context_parts ≠ [] then String.intercalate "\n\n---\n\n" context_parts
  else "No specific information was retrieved from OpenFDA or PubMed for your query."

/-- The fixed disclaimer appended to every HealthInfo answer. -/
def w2Disclaimer : String :=
  "\n\n*Disclaimer: HealthMate provides AI-generated information based on data from public APIs and is not a substitute for professional medical advice. Always consult a healthcare provider for any medical concerns.*"

/-- The human-input prompt sent to the synthesis agent. -/
def w2SynthPrompt (state : HealthInfoWorkflowState)
    (context_data_str : String) : String :=
  let is_vetting := state.is_misinfo_check
  let claim := state.claim_to_check
  "User\x27s original question: \"" ++ state.user_query ++ "\"\n\n" ++
  (if is_vetting && optStrTruthy claim then
     "User also wants to vet this claim: \"" ++ claim.getD "" ++ "\"\n\n"
   else "") ++
  "Provided Context Data:\n" ++ context_data_str ++ "\n\n" ++
  (if is_vetting && optStrTruthy claim then
     "Please analyze the claim based *only* on the provided context. State whether the context supports, contradicts, or is insufficient. Then, provide a synthesized answer to the original question using the context. Remember, do not use any tools for this task."
   else
     "Please provide a synthesized answer to the question using the context. Remember, do not use any tools for this task.")

/-- The deterministic fallback answer emitted when the synthesis agent
produced no usable output; `fallback_detail` is the freshly appended
accumulated error. -/
def w2FallbackAnswer (fallback_detail : String) : String :=
  "HealthMate encountered an issue and could not generate a detailed response at this time. Details: " ++
    fallback_detail ++
    "\nPlease try rephrasing your query or try again later." ++ w2Disclaimer

/-- `w2_synthesize_and_vet_node`.  The error-append on an agent failure or
empty response raises when no error string was recorded earlier; when the
append succeeds, the appended error is the `fallback_detail` quoted in the
fallback answer. -/
def w2_synthesize_and_vet_node (env : W2Env)
    (state : HealthInfoWorkflowState) :
    Except String HealthInfoWorkflowState :=
  let current_error := state.error_message
  let is_vetting := state.is_misinfo_check
  let context_data_str := w2ContextDataStr state
  match env.synthCreate with
  | some e =>
      match pyAddStrip current_error
          (" Error creating synthesis agent: " ++ e) with
      | .error te => .error te
      | .ok m =>
          .ok { state with
            error_message := some m
            synthesized_answer := some (
              "HealthMate was unable to process your request due to an internal error (synthesis agent creation).") }
  | none =>
      match env.synthInvoke (w2SynthPrompt state context_data_str) with
      | .exn e =>
          match pyAddStrip current_error
              (" LLM Service Error during synthesis: " ++ e) with
          | .error te => .error te
          | .ok m =>
              .ok { state with
                error_message := some m
                synthesized_answer := some (w2FallbackAnswer m) }
      | .resp r =>
          if r = "" then
            match pyAddStrip current_error
                " Synthesis agent returned an empty response string." with
            | .error te => .error te
            | .ok m =>
                .ok { state with
                  error_message := some m
                  synthesized_answer := some (w2FallbackAnswer m) }
          else
            let state := { state with
              synthesized_answer := some (r ++ w2Disclaimer) }
            .ok (if is_vetting then
                  { state with vetting_conclusion := some (
                      "Vetting analysis is incorporated into the LLM response.") }
                else state)

/-- One full HealthInfo workflow run: the linear node sequence
initialize → preprocess → llm refinement → fetch → synthesize.  An
exception raised in a node propagates out of the run: the caller receives
no final state. -/
def runHealthInfo (env : W2Env) (initial_input : W2Input) :
    Except String HealthInfoWorkflowState :=
  match w2_llm_query_refinement_node env
          (w2_preprocess_query_node (w2_init_state initial_input)) with
  | .error e => .error e
  | .ok s1 =>
      match w2_fetch_information_node env s1 with
      | .error e => .error e
      | .ok s2 => w2_synthesize_and_vet_node env s2

/-! ### Outbreak workflow (backend/workflows/outbreak_workflow.py)

The workflow calls `tool_analyze_text_for_symptoms`, `tool_search_pubmed`
and `tool_get_health_gov_topic` directly as Python functions; the two
network-backed clients are environment parameters.  `w1_research_symptoms`
is partial: when the detected-symptoms list is empty the source evaluates
`detected_symptoms_list[0]`, raising `IndexError`, which propagates out of
the graph run; this is modelled with `Except`. -/

/-- The external collaborators of one Outbreak workflow run. -/
structure W1Env where
  fetch_pubmed_articles : String → Int → List JDict
  fetch_health_gov_topic : String → Option JDict

/-- `OutbreakWorkflowState` (the `debug_log` and `synthesis_prompt`
bookkeeping fields, which no control flow reads, are omitted). -/
structure OutbreakWorkflowState where
  raw_input_text : Option String
  detected_symptoms_result : Option SymptomAnalysis
  pubmed_research_results : Option (List JDict)
  health_gov_info_result : Option JDict
  potential_alert_level : String
  synthesized_report : Option String
  error_message : Option String
  deriving DecidableEq, Repr

/-- `w1_initialize_state`: resets every field except the raw input. -/
def w1_init_state (raw_input_text : Option String) : OutbreakWorkflowState :=
  { raw_input_text := raw_input_text
    detected_symptoms_result := none
    pubmed_research_results := some []
    health_gov_info_result := none
    potential_alert_level := "None"
    synthesized_report := none
    error_message := none }

/-- `w1_analyze_input_node`: validates the raw text, then runs the keyword
symptom analyzer (a local pure function). -/
def w1_analyze_input_node (state : OutbreakWorkflowState) :
    OutbreakWorkflowState :=
  match state.raw_input_text with
  | none =>
      { state with error_message := some "No input text provided for outbreak analysis." }
  | some raw_text =>
      if raw_text = "" || pyStrip raw_text = "" then
        { state with error_message := some "No input text provided for outbreak analysis." }
      else
        { state with detected_symptoms_result := some (analyzeSymptomsCore raw_text) }

/-- `w1_research_symptoms_node`.  Mirrors the source's condition
`not detected_symptoms_list or ("general concern signal" in
detected_symptoms_list[0] and len(detected_symptoms_list) == 1)`; inside
that branch the source indexes `detected_symptoms_list[0]`, which raises
`IndexError` when the list is empty. -/
def w1_research_symptoms_node (env : W1Env) (state : OutbreakWorkflowState) :
    Except String OutbreakWorkflowState :=
  if optStrTruthy state.error_message then .ok state
  else
    let detected_symptoms_list :=
      (state.detected_symptoms_result.map (·.symptoms_detected)).getD []
    if detected_symptoms_list = [] ||
       (match detected_symptoms_list with
        | d0 :: _ => pyIn "general concern signal" d0 &&
            detected_symptoms_list.length = 1
        | [] => false) then
      match detected_symptoms_list with
      | [] => .error "IndexError: list index out of range"
      | d0 :: _ =>
          if pyIn "general concern signal" d0 then
            let pubmed_query := "public health emerging concerns OR unusual illness patterns"
            .ok { state with pubmed_research_results := some (
                    tool_search_pubmed env.fetch_pubmed_articles pubmed_query 1) }
          else .ok state
    else
      let symptom_query_terms :=
        detected_symptoms_list.filter (fun s => !(pyIn "general concern" s))
      let pubmed_query :=
        if symptom_query_terms = [] then
          "public health emerging concerns OR unusual illness patterns"
        else
          String.intercalate " AND " symptom_query_terms ++
            " (emerging OR unusual OR outbreak OR epidemic)"
      let state := { state with pubmed_research_results := some (
        tool_search_pubmed env.fetch_pubmed_articles pubmed_query 2) }
      let health_topic_query :=
        match symptom_query_terms with
        | t :: _ => t
        | [] => "public health alerts"
      let state := { state with health_gov_info_result := some (
        tool_get_health_gov_topic env.fetch_health_gov_topic health_topic_query) }
      .ok state

/-- `w1_assess_alert_level_node`: the fixed alert-level decision policy. -/
def w1_assess_alert_level_node (state : OutbreakWorkflowState) :
    OutbreakWorkflowState :=
  if optStrTruthy state.error_message then state
  else
    let detected_symptoms_list :=
      (state.detected_symptoms_result.map (·.symptoms_detected)).getD []
    let pubmed_results := state.pubmed_research_results.getD []
    let health_gov_data := state.health_gov_info_result
    let significant_symptoms :=
      detected_symptoms_list.filter (fun s => !(pyIn "general concern" s))
    let alert_level :=
      if significant_symptoms.length ≥ 2 && pubmed_results ≠ [] then
        if pubmed_results.any (fun res =>
             let title_summary :=
               pyLower (getStrD res "title" "" ++ getStrD res "summary" "")
             (["outbreak", "epidemic", "unusual surge"].any
                (fun kw => pyIn kw title_summary)) ||
             ((significant_symptoms.take 2).all
                (fun sym => pyIn sym title_summary))) then
          "High (Multiple symptoms with highly relevant/concerning literature)"
        else "Medium (Multiple symptoms with related literature)"
      else if significant_symptoms ≠ [] && pubmed_results ≠ [] then
        "Low-Medium (Symptoms detected with some literature)"
      else if significant_symptoms ≠ [] then
        "Low (Symptoms detected, no corroborating literature found via basic search)"
      else if detected_symptoms_list.contains "general concern signal" then
        "Low (General concern signal, monitoring advised)"
      else "Low (Monitoring)"
    let alert_level :=
      match health_gov_data with
      | some hg =>
          if hg ≠ ([] : JDict) && !(jtruthy (jget hg "error")) &&
             pyIn "alert" (pyLower (getStrD hg "topic" "")) then
            if startsWithS alert_level "Low" then
              "Medium (Existing health alert may be relevant)"
            else if startsWithS alert_level "Medium" then
              "High (Existing health alert likely relevant to findings)"
            else alert_level
          else alert_level
      | none => alert_level
    { state with potential_alert_level := alert_level }

/-- `w1_synthesize_report_node`: deterministic template assembly of the
final report. -/
def w1_synthesize_report_node (state : OutbreakWorkflowState) :
    OutbreakWorkflowState :=
  if optStrTruthy state.error_message then
    { state with synthesized_report := some (
        "Report generation failed due to error: " ++ state.error_message.getD "") }
  else
    let report_parts :=
      ["--- HealthMate Outbreak Monitoring Report ---",
       "Input Analyzed: \"" ++ pyTake (state.raw_input_text.getD "N/A") 150 ++ "...\"",
       "Potential Alert Level: " ++ state.potential_alert_level]
    let report_parts := report_parts ++
      (match state.detected_symptoms_result with
       | some symptoms_data =>
           if symptoms_data.symptoms_detected ≠ [] then
             ["Detected Symptoms/Signals: " ++
                String.intercalate ", " symptoms_data.symptoms_detected]
           else ["Detected Symptoms/Signals: None or not specific."]
       | none => ["Detected Symptoms/Signals: None or not specific."])
    let pubmed_results := state.pubmed_research_results.getD []
    let report_parts := report_parts ++
      (if pubmed_results ≠ [] &&
          !(pubmed_results.any (fun res => jHasKey res "error")) then
         ["\nPubMed Research Highlights:"] ++
           (pubmed_results.enum.map (fun p =>
             ["  [" ++ toString (p.1 + 1) ++ "] Title: " ++
                pyFStr (jgetD p.2 "title" "N/A"),
              "      Summary: " ++ pyTake (getStrD p.2 "summary" "N/A") 200 ++ "..."])).flatten
       else
         ["\nPubMed Research Highlights: No significant articles found or error in retrieval."])
    let report_parts := report_parts ++
      (match state.health_gov_info_result with
       | some health_gov_data =>
           if health_gov_data ≠ ([] : JDict) &&
              !(jtruthy (jget health_gov_data "error")) then
             ["\nHealth.gov Topic Information (" ++
                pyFStr (jgetD health_gov_data "source" "Health.gov") ++ "):",
              "  Topic: " ++ pyFStr (jgetD health_gov_data "topic" "N/A"),
              "  Summary: " ++ pyFStr (jgetD health_gov_data "summary" "N/A")]
           else
             ["\nHealth.gov Topic Information: No specific topic found or error in retrieval."]
       | none =>
           ["\nHealth.gov Topic Information: No specific topic found or error in retrieval."])
    let report_parts := report_parts ++ ["\n--- End of Report ---"]
    { state with synthesized_report := some (String.intercalate "\n" report_parts) }

/-- One full Outbreak workflow run: initialize → analyze → research →
assess alert level → synthesize report.  An exception in a node propagates
out of the run (`Except.error`): the caller receives no final state. -/
def runOutbreak (env : W1Env) (raw_input_text : Option String) :
    Except String OutbreakWorkflowState :=
  match w1_research_symptoms_node env
          (w1_analyze_input_node (w1_init_state raw_input_text)) with
  | .error e => .error e
  | .ok s => .ok (w1_synthesize_report_node (w1_assess_alert_level_node s))

/-! ### PostDischarge workflow (backend/workflows/postdischarge_workflow.py) -/

/-- The outcome of `await fda_tool.ainvoke(...)` in the post-discharge fetch
node: a dict, a string (to be JSON-parsed), some other value (carrying its
str repr), or a raised exception. -/
inductive W3FdaCall where
  | rdict (d : JDict)
  | rstr (s : String)
  | rother (r : String)
  | exn (msg : String)

/-- The result of `json.loads` applied to a string tool response: a dict,
a non-dict JSON value, or a parse failure. -/
inductive W3Parsed where
  | jdict (d : JDict)
  | jnondict
  | jfail

/-- The external collaborators of one PostDischarge workflow run. -/
structure W3Env where
  toolsLoaded : Bool
  fdaToolPresent : Bool
  fdaInvoke : String → W3FdaCall
  jsonLoads : String → W3Parsed
  synthCreate : Option String
  synthInvoke : String → AgentOutcome

/-- `PostDischargeWorkflowState`. -/
structure PostDischargeWorkflowState where
  condition_context : Option String
  medication_context : Option String
  user_specific_question : String
  medication_info_result : Option JDict
  synthesized_response : Option String
  error_message : Option String
  deriving DecidableEq, Repr

/-- The input-category fields supplied by the caller. -/
structure W3Input where
  condition_context : Option String
  medication_context : Option String
  user_specific_question : String
  deriving DecidableEq, Repr

/-- `w3_initialize_state`. -/
def w3_init_state (initial_input : W3Input) : PostDischargeWorkflowState :=
  { condition_context := initial_input.condition_context
    medication_context := initial_input.medication_context
    user_specific_question := initial_input.user_specific_question
    medication_info_result := none
    synthesized_response := none
    error_message := none }

/-- Defensive normalization of the raw FDA tool response in
`w3_fetch_contextual_info_node`: dict kept, string JSON-decoded (non-dict
or unparsable becomes an error record), anything else becomes an error
record. -/
def w3ProcessToolResponse (env : W3Env) (medication_name : String) :
    W3FdaCall → JDict
  | .rdict d => d
  | .rstr raw =>
      (match env.jsonLoads raw with
       | .jdict d => d
       | .jnondict =>
           [("drug_name_queried", .jstr medication_name),
            ("error", .jstr "Tool returned string that parsed to non-dict."),
            ("details", .jstr raw)]
       | .jfail =>
           [("drug_name_queried", .jstr medication_name),
            ("error", .jstr "Tool returned unparsable string."),
            ("details", .jstr raw)])
  | .rother r =>
      [("drug_name_queried", .jstr medication_name),
       ("error", .jstr "Unexpected tool output type."),
       ("details", .jstr r)]
  | .exn e =>
      [("drug_name_queried", .jstr medication_name),
       ("error", .jstr ("Exception during tool call/processing: " ++ e))]

/-- `w3_fetch_contextual_info_node`. -/
def w3_fetch_contextual_info_node (env : W3Env)
    (state : PostDischargeWorkflowState) : PostDischargeWorkflowState :=
  let current_error := state.error_message.getD ""
  if !env.toolsLoaded then
    { state with error_message := some (pyStrip (current_error ++
        " Internal error: Tool for fetching medication info not available.")) }
  else if !env.fdaToolPresent then
    { state with error_message := some (pyStrip (current_error ++
        " Internal error: FDA information tool is missing.")) }
  else if pyStrip state.user_specific_question = "" then
    { state with error_message := some (pyStrip (current_error ++
        " User question is empty for post-discharge support.")) }
  else
    match state.medication_context with
    | none => state
    | some medication_name =>
        if pyStrip medication_name = "" then state
        else
          match env.fdaInvoke medication_name with
          | .exn e =>
              { state with
                medication_info_result := some (
                  [("drug_name_queried", .jstr medication_name),
                   ("error", .jstr ("Exception during tool call/processing: " ++ e))])
                error_message := some (pyStrip (current_error ++
                  " Error fetching/processing FDA info: " ++ e)) }
          | raw =>
              let processed := w3ProcessToolResponse env medication_name raw
              let state := { state with medication_info_result := some processed }
              if processed ≠ ([] : JDict) && jtruthy (jget processed "error") then
                if pyIn "Tool returned unexpected output" (getStrD processed "error" "") ||
                   pyIn "Tool returned unparsable string" (getStrD processed "error" "") then
                  { state with error_message := some (pyStrip (current_error ++
                      " FDA tool returned problematic output for \x27" ++
                      medication_name ++ "\x27. ")) }
                else state
              else state

/-- The fixed post-discharge disclaimer. -/
def W3_DISCLAIMER : String :=
  "\n\n*Disclaimer: This information is for general guidance and not a substitute for professional medical advice. Always contact your healthcare provider for any specific medical concerns or before making any decisions related to your health or treatment.*"

/-- The bounded first-element slice (300 characters) used by the
post-discharge context builder. -/
def w3Field300 (d : JDict) (k : String) : String :=
  pyTake (match jget d k with
   | some (.jlist (x :: _)) => x
   | _ => "N/A") 300

/-- The reduced OpenFDA dictionary embedded into the post-discharge
context. -/
def w3FdaContextDict (med_info : JDict) : JDict :=
  [("drug_name_queried", (jget med_info "drug_name_queried").getD .jnull),
   ("brand_name", (jget med_info "brand_name").getD .jnull),
   ("generic_name", (jget med_info "generic_name").getD .jnull),
   ("indications_and_usage", .jstr (w3Field300 med_info "indications_and_usage")),
   ("dosage_and_administration", .jstr (w3Field300 med_info "dosage_and_administration")),
   ("adverse_reactions", .jstr (w3Field300 med_info "adverse_reactions")),
   ("warnings_and_precautions", .jstr (w3Field300 med_info "warnings_and_precautions"))]

/-- Python `str(med_info)` for the retrieved-data note (`None` or a dict in
the modelled paths). -/
def w3StrOfMedInfo : Option JDict → String
  | none => "None"
  | some d => pyReprJDict d

/-- The `context_parts` list assembled by `w3_generate_response_node`. -/
def w3ContextParts (state : PostDischargeWorkflowState) : List String :=
  let condition_ctx := state.condition_context
  let medication_ctx := state.medication_context
  let med_info := state.medication_info_result
  let base :=
    ["User\x27s Stated Context: Condition=\x27" ++
       (if optStrTruthy condition_ctx then condition_ctx.getD "" else "Not specified") ++
       "\x27 Medication=\x27" ++
       (if optStrTruthy medication_ctx then medication_ctx.getD "" else "Not specified") ++
       "\x27"]
  if optStrTruthy medication_ctx then
    base ++
      (match med_info with
       | some info =>
           if info ≠ ([] : JDict) && !(jtruthy (jget info "error")) then
             ["Retrieved OpenFDA Information for \x27" ++
                pyFStr (jgetD info "drug_name_queried" (medication_ctx.getD "")) ++
                "\x27:\n" ++ dumpJDict (w3FdaContextDict info) 0]
           else if info ≠ ([] : JDict) && jtruthy (jget info "error") then
             ["Note on OpenFDA Information for \x27" ++ medication_ctx.getD "" ++
                "\x27: An error occurred during retrieval - " ++
                pyFStr ((jget info "details").getD ((jget info "error").getD .jnull))]
           else
             ["Note on OpenFDA Information for \x27" ++ medication_ctx.getD "" ++
                "\x27: No specific drug information was found or an issue occurred with retrieval. Retrieved data: " ++
                pyTake (w3StrOfMedInfo med_info) 200]
       | none =>
           ["Note on OpenFDA Information for \x27" ++ medication_ctx.getD "" ++
              "\x27: No specific drug information was found or an issue occurred with retrieval. Retrieved data: " ++
              pyTake (w3StrOfMedInfo med_info) 200])
  else base

/-- The human-input prompt sent to the post-discharge response agent. -/
def w3Prompt (state : PostDischargeWorkflowState) (context_data_str : String) :
    String :=
  "User\x27s post-discharge question: \"" ++ state.user_specific_question ++
    "\"\n\nContext Provided to you (includes user\x27s statements and retrieved FDA data):\n" ++
    context_data_str

/-- `w3_generate_response_node`. -/
def w3_generate_response_node (env : W3Env)
    (state : PostDischargeWorkflowState) : PostDischargeWorkflowState :=
  let current_error := state.error_message.getD ""
  let user_q := state.user_specific_question
  if pyStrip user_q = "" then
    let current_error :=
      if current_error = "" then "User question is empty, cannot generate response."
      else current_error
    let state :=
      if state.error_message.getD "" = "" then
        { state with error_message := some current_error }
      else state
    if current_error ≠ "" then
      { state with synthesized_response := some (
          "Could not generate a response. Reason: " ++ current_error ++ W3_DISCLAIMER) }
    else
      { state with synthesized_response := some (
          "I received an empty question. Please provide your specific question for post-discharge support." ++
          W3_DISCLAIMER) }
  else
    let context_data_str := String.intercalate "\n\n---\n\n" (w3ContextParts state)
    match env.synthCreate with
    | some e =>
        { state with
          error_message := some (pyStrip (current_error ++
            " Error creating response agent: " ++ e))
          synthesized_response := some (
            "HealthMate encountered an internal error and could not generate a response." ++
            W3_DISCLAIMER) }
    | none =>
        let outcome := env.synthInvoke (w3Prompt state context_data_str)
        let llm_agent_response_str := match outcome with
          | .exn _ => ""
          | .resp r => r
        let state := match outcome with
          | .exn e =>
              { state with error_message := some (pyStrip (current_error ++
                  " Error during agent response generation: " ++ e)) }
          | .resp r =>
              if r = "" then
                { state with error_message := some (pyStrip (current_error ++
                    " Response agent returned an empty string.")) }
              else state
        if llm_agent_response_str ≠ "" then
          { state with synthesized_response := some (
              llm_agent_response_str ++ W3_DISCLAIMER) }
        else
          let final_error_message :=
            if optStrTruthy state.error_message then state.error_message.getD ""
            else "Agent failed to generate a response."
          let state :=
            if !(optStrTruthy state.error_message) then
              { state with error_message := some final_error_message }
            else state
          { state with synthesized_response := some (
              "HealthMate was unable to generate a response at this time due to: " ++
              final_error_message ++
              ". For urgent matters, please contact your healthcare provider." ++
              W3_DISCLAIMER) }

/-- One full PostDischarge workflow run: initialize → fetch contextual
info → generate response. -/
def runPostDischarge (env : W3Env) (initial_input : W3Input) :
    PostDischargeWorkflowState :=
  w3_generate_response_node env
    (w3_fetch_contextual_info_node env (w3_init_state initial_input))


/-! ### Concrete test fixtures used by closed counterexamples and witnesses -/

/-- A baseline HealthInfo environment: tools loaded, both tools present,
agents return nothing, both tool invocations fail with an exception. -/
def w2EnvBase : W2Env :=
  { toolsLoaded := true
    fdaToolPresent := true
    pubmedToolPresent := true
    refineCreate := none
    refineInvoke := fun _ => .resp ""
    jsonLoads := fun _ => none
    fdaInvoke := fun _ => .exn "connection refused"
    pubmedInvoke := fun _ => .exn "connection refused"
    synthCreate := none
    synthInvoke := fun _ => .resp "" }

/-- A baseline Outbreak environment: adapters return nothing. -/
def w1EnvBase : W1Env :=
  { fetch_pubmed_articles := fun _ _ => []
    fetch_health_gov_topic := fun _ => none }

/-- A vetting-mode state whose claim contains the phrase "cures cancer",
as produced after preprocessing/refinement/fetch with an empty PubMed
result. -/
def sVetting : HealthInfoWorkflowState :=
  { user_query := "is it true that garlic cures cancer"
    is_misinfo_check := true
    claim_to_check := some "Garlic cures cancer naturally."
    search_query_for_tools := some "garlic cancer evidence"
    fda_info_result := none
    pubmed_research_results := some []
    extracted_drug_name := none
    synthesized_answer := none
    vetting_conclusion := none
    error_message := none }

/-- A state in which the FDA fetch succeeded and the PubMed slot carries an
error record (the spec's Example 4 scenario). -/
def sErrSlots : HealthInfoWorkflowState :=
  { sVetting with
    is_misinfo_check := false
    claim_to_check := none
    fda_info_result := some [("drug_name_queried", .jstr "metformin"),
                             ("brand_name", .jlist ["Glucophage"])]
    extracted_drug_name := some "metformin"
    pubmed_research_results := some [[("error", .jstr "timeout")]] }

/-- A state in which no entity was extracted and no FDA fetch was
triggered. -/
def sNoEntity : HealthInfoWorkflowState :=
  { sVetting with
    is_misinfo_check := false
    claim_to_check := none
    search_query_for_tools := some "sleep hygiene"
    fda_info_result := none
    extracted_drug_name := none }

/-- An environment whose synthesis agent answers with fixed neutral text. -/
def c2Env : W2Env :=
  { w2EnvBase with synthInvoke := fun _ => AgentOutcome.resp (
      "The provided context does not mention garlic or cancer.") }

/-- An environment whose PubMed tool echoes back the query it was given. -/
def c4Env : W2Env :=
  { w2EnvBase with pubmedInvoke := fun q => .ret [[("query_echo", .jstr q)]] }

/-- An environment whose synthesis agent answers "Hello" to any prompt. -/
def c5Env : W2Env :=
  { w2EnvBase with synthInvoke := fun _ => .resp "Hello" }

/-- An environment for which every HealthInfo stage completes: the
refinement agent returns a parseable JSON object and the synthesis agent
returns text. -/
def wOkEnv : W2Env :=
  { w2EnvBase with
    refineInvoke := fun _ => .resp "\x7b\x7d"
    jsonLoads := fun _ => some ⟨some "garlic evidence", none⟩
    synthInvoke := fun _ => .resp "Based on the context, no data was found." }

/-- The assembled context of a HealthInfo run (the `context_data_str` the
synthesis stage is given), or the exception that aborted the run before
synthesis. -/
def w2AssembledContext (env : W2Env) (initial_input : W2Input) :
    Except String String :=
  match w2_llm_query_refinement_node env
          (w2_preprocess_query_node (w2_init_state initial_input)) with
  | .error e => .error e
  | .ok s1 =>
      match w2_fetch_information_node env s1 with
      | .error e => .error e
      | .ok s2 => .ok (w2ContextDataStr s2)

set_option maxRecDepth 16384

/-! ### Helper lemmas -/

lemma append_ne_empty_left (a b : String) (h : a ≠ "") : a ++ b ≠ "" := by
  intro hc
  apply h
  cases a with
  | mk la =>
    cases b with
    | mk lb =>
      have hd : la ++ lb = [] := congrArg String.data hc
      rcases List.append_eq_nil.mp hd with ⟨h1, _⟩
      exact congrArg String.mk h1

lemma w2FallbackAnswer_ne (m : String) : w2FallbackAnswer m ≠ "" :=
  append_ne_empty_left _ _ (append_ne_empty_left _ _
    (append_ne_empty_left _ _ (by decide)))

/-- Whenever the synthesis node completes, it has stored a non-empty
answer. -/
lemma w2SynthAnswers (env : W2Env) (s fs : HealthInfoWorkflowState)
    (h : w2_synthesize_and_vet_node env s = .ok fs) :
    ∃ a, fs.synthesized_answer = some a ∧ a ≠ "" := by
  unfold w2_synthesize_and_vet_node at h
  dsimp only at h
  split at h
  · -- agent creation failed
    split at h
    · exact Except.noConfusion h
    · injection h with h
      subst h
      exact ⟨_, rfl, by decide⟩
  · split at h
    · -- agent invocation raised
      split at h
      · exact Except.noConfusion h
      · injection h with h
        subst h
        exact ⟨_, rfl, w2FallbackAnswer_ne _⟩
    · -- agent returned a string
      split at h
      · -- empty string
        split at h
        · exact Except.noConfusion h
        · injection h with h
          subst h
          exact ⟨_, rfl, w2FallbackAnswer_ne _⟩
      · -- non-empty string
        rename_i r heq2 hne
        injection h with h
        subst h
        exact ⟨r ++ w2Disclaimer, by split <;> rfl,
          append_ne_empty_left _ _ hne⟩

/-! ### Frame micro-lemmas: no stage after initialization writes the
input fields `user_query`, `is_misinfo_check`, `claim_to_check` (for the
fallible stages: whenever the stage completes with a state). -/

lemma w2fb_uq (s : HealthInfoWorkflowState) (g : Option String) :
    (w2FallbackDrug s g).user_query = s.user_query := by
  unfold w2FallbackDrug
  repeat' split
  all_goals rfl

lemma w2pp_uq (s : HealthInfoWorkflowState) :
    (w2_preprocess_query_node s).user_query = s.user_query := by
  unfold w2_preprocess_query_node
  dsimp only
  repeat' split
  all_goals rfl

lemma w2pr_uq (env : W2Env) (ce : Option String) (uq : String)
    (g : Option String) (r : String) (s s2 : HealthInfoWorkflowState)
    (h : w2ProcessRefinement env ce uq g r s = .ok s2) :
    s2.user_query = s.user_query := by
  unfold w2ProcessRefinement at h
  repeat' split at h
  all_goals first
    | exact Except.noConfusion h
    | (injection h with h
       subst h
       first
         | rfl
         | exact w2fb_uq _ _)

lemma w2rf_uq (env : W2Env) (s s2 : HealthInfoWorkflowState)
    (h : w2_llm_query_refinement_node env s = .ok s2) :
    s2.user_query = s.user_query := by
  unfold w2_llm_query_refinement_node at h
  dsimp only at h
  split at h
  · injection h with h
    subst h
    rfl
  · split at h
    · split at h
      · exact Except.noConfusion h
      · injection h with h
        subst h
        rfl
    · split at h
      · split at h
        · exact Except.noConfusion h
        · injection h with h
          subst h
          rfl
      · split at h
        · split at h
          · exact Except.noConfusion h
          · injection h with h
            subst h
            rfl
        · split at h
          · exact Except.noConfusion h
          · rename_i st heq
            injection h with h
            subst h
            have hst : st.user_query = s.user_query := by
              split at heq
              · split at heq
                · exact Except.noConfusion heq
                · injection heq with heq
                  subst heq
                  rfl
              · exact w2pr_uq _ _ _ _ _ _ _ heq
            split
            · exact hst
            · exact hst

lemma w2ft_uq (env : W2Env) (s s2 : HealthInfoWorkflowState)
    (h : w2_fetch_information_node env s = .ok s2) :
    s2.user_query = s.user_query := by
  unfold w2_fetch_information_node at h
  dsimp only at h
  repeat' split at h
  all_goals first
    | exact Except.noConfusion h
    | (injection h with h
       subst h
       repeat' split
       all_goals rfl)

lemma w2sy_uq (env : W2Env) (s s2 : HealthInfoWorkflowState)
    (h : w2_synthesize_and_vet_node env s = .ok s2) :
    s2.user_query = s.user_query := by
  unfold w2_synthesize_and_vet_node at h
  dsimp only at h
  repeat' split at h
  all_goals first
    | exact Except.noConfusion h
    | (injection h with h
       subst h
       repeat' split
       all_goals rfl)

lemma w2fb_mc (s : HealthInfoWorkflowState) (g : Option String) :
    (w2FallbackDrug s g).is_misinfo_check = s.is_misinfo_check := by
  unfold w2FallbackDrug
  repeat' split
  all_goals rfl

lemma w2pp_mc (s : HealthInfoWorkflowState) :
    (w2_preprocess_query_node s).is_misinfo_check = s.is_misinfo_check := by
  unfold w2_preprocess_query_node
  dsimp only
  repeat' split
  all_goals rfl

lemma w2pr_mc (env : W2Env) (ce : Option String) (uq : String)
    (g : Option String) (r : String) (s s2 : HealthInfoWorkflowState)
    (h : w2ProcessRefinement env ce uq g r s = .ok s2) :
    s2.is_misinfo_check = s.is_misinfo_check := by
  unfold w2ProcessRefinement at h
  repeat' split at h
  all_goals first
    | exact Except.noConfusion h
    | (injection h with h
       subst h
       first
         | rfl
         | exact w2fb_mc _ _)

lemma w2rf_mc (env : W2Env) (s s2 : HealthInfoWorkflowState)
    (h : w2_llm_query_refinement_node env s = .ok s2) :
    s2.is_misinfo_check = s.is_misinfo_check := by
  unfold w2_llm_query_refinement_node at h
  dsimp only at h
  split at h
  · injection h with h
    subst h
    rfl
  · split at h
    · split at h
      · exact Except.noConfusion h
      · injection h with h
        subst h
        rfl
    · split at h
      · split at h
        · exact Except.noConfusion h
        · injection h with h
          subst h
          rfl
      · split at h
        · split at h
          · exact Except.noConfusion h
          · injection h with h
            subst h
            rfl
        · split at h
          · exact Except.noConfusion h
          · rename_i st heq
            injection h with h
            subst h
            have hst : st.is_misinfo_check = s.is_misinfo_check := by
              split at heq
              · split at heq
                · exact Except.noConfusion heq
                · injection heq with heq
                  subst heq
                  rfl
              · exact w2pr_mc _ _ _ _ _ _ _ heq
            split
            · exact hst
            · exact hst

lemma w2ft_mc (env : W2Env) (s s2 : HealthInfoWorkflowState)
    (h : w2_fetch_information_node env s = .ok s2) :
    s2.is_misinfo_check = s.is_misinfo_check := by
  unfold w2_fetch_information_node at h
  dsimp only at h
  repeat' split at h
  all_goals first
    | exact Except.noConfusion h
    | (injection h with h
       subst h
       repeat' split
       all_goals rfl)

lemma w2sy_mc (env : W2Env) (s s2 : HealthInfoWorkflowState)
    (h : w2_synthesize_and_vet_node env s = .ok s2) :
    s2.is_misinfo_check = s.is_misinfo_check := by
  unfold w2_synthesize_and_vet_node at h
  dsimp only at h
  repeat' split at h
  all_goals first
    | exact Except.noConfusion h
    | (injection h with h
       subst h
       repeat' split
       all_goals rfl)

lemma w2fb_cc (s : HealthInfoWorkflowState) (g : Option String) :
    (w2FallbackDrug s g).claim_to_check = s.claim_to_check := by
  unfold w2FallbackDrug
  repeat' split
  all_goals rfl

lemma w2pp_cc (s : HealthInfoWorkflowState) :
    (w2_preprocess_query_node s).claim_to_check = s.claim_to_check := by
  unfold w2_preprocess_query_node
  dsimp only
  repeat' split
  all_goals rfl

lemma w2pr_cc (env : W2Env) (ce : Option String) (uq : String)
    (g : Option String) (r : String) (s s2 : HealthInfoWorkflowState)
    (h : w2ProcessRefinement env ce uq g r s = .ok s2) :
    s2.claim_to_check = s.claim_to_check := by
  unfold w2ProcessRefinement at h
  repeat' split at h
  all_goals first
    | exact Except.noConfusion h
    | (injection h with h
       subst h
       first
         | rfl
         | exact w2fb_cc _ _)

lemma w2rf_cc (env : W2Env) (s s2 : HealthInfoWorkflowState)
    (h : w2_llm_query_refinement_node env s = .ok s2) :
    s2.claim_to_check = s.claim_to_check := by
  unfold w2_llm_query_refinement_node at h
  dsimp only at h
  split at h
  · injection h with h
    subst h
    rfl
  · split at h
    · split at h
      · exact Except.noConfusion h
      · injection h with h
        subst h
        rfl
    · split at h
      · split at h
        · exact Except.noConfusion h
        · injection h with h
          subst h
          rfl
      · split at h
        · split at h
          · exact Except.noConfusion h
          · injection h with h
            subst h
            rfl
        · split at h
          · exact Except.noConfusion h
          · rename_i st heq
            injection h with h
            subst h
            have hst : st.claim_to_check = s.claim_to_check := by
              split at heq
              · split at heq
                · exact Except.noConfusion heq
                · injection heq with heq
                  subst heq
                  rfl
              · exact w2pr_cc _ _ _ _ _ _ _ heq
            split
            · exact hst
            · exact hst

lemma w2ft_cc (env : W2Env) (s s2 : HealthInfoWorkflowState)
    (h : w2_fetch_information_node env s = .ok s2) :
    s2.claim_to_check = s.claim_to_check := by
  unfold w2_fetch_information_node at h
  dsimp only at h
  repeat' split at h
  all_goals first
    | exact Except.noConfusion h
    | (injection h with h
       subst h
       repeat' split
       all_goals rfl)

lemma w2sy_cc (env : W2Env) (s s2 : HealthInfoWorkflowState)
    (h : w2_synthesize_and_vet_node env s = .ok s2) :
    s2.claim_to_check = s.claim_to_check := by
  unfold w2_synthesize_and_vet_node at h
  dsimp only at h
  repeat' split at h
  all_goals first
    | exact Except.noConfusion h
    | (injection h with h
       subst h
       repeat' split
       all_goals rfl)

/-! ### Claim C1 -/

/-- Claim C1 (code bug witness): the spec requires every workflow run --
including runs where every adapter fails -- to end with a non-empty primary
answer.  The outbreak workflow violates this: on the input "hello"
(non-empty text containing no symptom keyword and no report/outbreak
signal) the detected-symptoms list is empty, and `w1_research_symptoms_node`
evaluates `detected_symptoms_list[0]`, raising `IndexError`; the run aborts
with no final state and no answer, for every adapter environment. -/
theorem C1_outbreak_crash (env : W1Env) :
    runOutbreak env (some "hello") =
      .error "IndexError: list index out of range" := rfl

/-! ### Claim C2 -/

/-- Claim C2 counterexample: on a vetting run whose claim contains
"cures cancer", with the assembled context empty of any relevant data, the
synthesis/vetting stage emits no heightened-caution verdict at all: the
vetting conclusion is the fixed neutral string "Vetting analysis is
incorporated into the LLM response." and the answer is the agent text plus
disclaimer -- neither mentions caution. -/
theorem C2_counterexample :
    (∃ fs, w2_synthesize_and_vet_node c2Env sVetting = .ok fs ∧
      fs.vetting_conclusion =
        some "Vetting analysis is incorporated into the LLM response." ∧
      fs.synthesized_answer =
        some ("The provided context does not mention garlic or cancer." ++
          w2Disclaimer) ∧
      pyIn "caution" (fs.synthesized_answer.getD "") = false ∧
      pyIn "caution" (fs.vetting_conclusion.getD "") = false) ∧
    pyIn "cures cancer" (sVetting.claim_to_check.getD "") = true :=
  ⟨⟨_, rfl, rfl, rfl, rfl, rfl⟩, rfl⟩

/-- Claim C2 amended: the synthesis/vetting stage applies no deterministic
claim-keyword policy; whenever the synthesis agent returns non-empty text,
a vetting run completes with the fixed string "Vetting analysis is
incorporated into the LLM response." as the vetting conclusion and the
agent text plus disclaimer as the answer, regardless of the claim
(including claims containing "cures cancer") and of the assembled
context. -/
theorem C2_amended (env : W2Env) (s : HealthInfoWorkflowState) (r : String)
    (hcreate : env.synthCreate = none)
    (hresp : ∀ p, env.synthInvoke p = .resp r)
    (hr : r ≠ "") (hvet : s.is_misinfo_check = true) :
    ∃ fs, w2_synthesize_and_vet_node env s = .ok fs ∧
      fs.vetting_conclusion =
        some "Vetting analysis is incorporated into the LLM response." ∧
      fs.synthesized_answer = some (r ++ w2Disclaimer) := by
  unfold w2_synthesize_and_vet_node
  dsimp only
  rw [hcreate]
  dsimp only
  rw [hresp]
  dsimp only
  rw [if_neg hr, hvet]
  exact ⟨_, rfl, rfl, rfl⟩

theorem C2_amended_witness :
    ∃ fs, w2_synthesize_and_vet_node c2Env sVetting = .ok fs ∧
      fs.vetting_conclusion =
        some "Vetting analysis is incorporated into the LLM response." ∧
      fs.synthesized_answer =
        some ("The provided context does not mention garlic or cancer." ++
          w2Disclaimer) :=
  C2_amended c2Env sVetting
    "The provided context does not mention garlic or cancer."
    rfl (fun _ => rfl) (by decide) rfl

/-! ### Claim C3 -/

/-- Claim C3 counterexample: `tool_analyze_text_for_symptoms` is a tool
adapter with a required string parameter, yet on the empty string it
returns a normal analysis record, not a validation-error record. -/
theorem C3_counterexample :
    tool_analyze_text_for_symptoms (.pstr "") =
      [("symptoms_detected", .jlist []), ("original_text_preview", .jstr "")] ∧
    jget (tool_analyze_text_for_symptoms (.pstr "")) "error" = none :=
  ⟨rfl, rfl⟩

/-- Claim C3 amended: every tool adapter except the symptom analyzer (which
deliberately accepts any string, including the empty one) rejects an
empty/whitespace-only required string parameter with the structured record
stating the field must be a non-empty string, without consulting the
underlying API client (the result is independent of the client
function). -/
theorem C3_amended (q : String) (hq : pyStrip q = "") :
    (∀ f g mr, tool_search_pubmed f q mr =
        [[("error", .jstr "Invalid input: \x27query\x27 must be a non-empty string.")]] ∧
        tool_search_pubmed f q mr = tool_search_pubmed g q mr) ∧
    (∀ f g, tool_get_fda_drug_info f q =
        [("error", .jstr "Invalid input: \x27drug_name\x27 must be a non-empty string.")] ∧
        tool_get_fda_drug_info f q = tool_get_fda_drug_info g q) ∧
    (∀ f g, tool_get_health_gov_topic f q =
        [("error", .jstr "Invalid input: \x27topic_query\x27 must be a non-empty string.")] ∧
        tool_get_health_gov_topic f q = tool_get_health_gov_topic g q) := by
  refine ⟨fun f g mr => ⟨?_, ?_⟩, fun f g => ⟨?_, ?_⟩, fun f g => ⟨?_, ?_⟩⟩ <;>
    simp [tool_search_pubmed, tool_get_fda_drug_info,
      tool_get_health_gov_topic, hq]

theorem C3_amended_witness :
    tool_search_pubmed (fun _ _ => []) "   " 3 =
      [[("error", .jstr "Invalid input: \x27query\x27 must be a non-empty string.")]] :=
  ((C3_amended "   " rfl).1 (fun _ _ => []) (fun _ _ => []) 3).1

/-! ### Claim C4 -/

/-- Claim C4 counterexample: on a vetting-mode state carrying both a
refined search query and a claim-to-vet, the fetch stage queries the
literature adapter with the refined query, not with the claim text -- the
claim is never used as the query term. -/
theorem C4_counterexample :
    (∃ fs, w2_fetch_information_node c4Env sVetting = .ok fs ∧
      fs.pubmed_research_results =
        some [[("query_echo", .jstr "garlic cancer evidence")]] ∧
      fs.pubmed_research_results ≠
        some [[("query_echo", .jstr "Garlic cures cancer naturally.")]]) ∧
    sVetting.is_misinfo_check = true ∧
    sVetting.claim_to_check = some "Garlic cures cancer naturally." :=
  ⟨⟨_, rfl, rfl, by decide⟩, rfl, rfl⟩

/-- Claim C4 amended: whenever no blocking error is recorded, the tool set
is loaded and the PubMed tool is present, the literature adapter is invoked
exactly when the effective query (`search_query_for_tools or user_query`)
is non-empty, with that query -- in vetting mode as well as informational
mode; the claim-to-vet text is never used as the query term. -/
theorem C4_amended (env : W2Env) (s : HealthInfoWorkflowState)
    (htools : env.toolsLoaded = true) (hpt : env.pubmedToolPresent = true)
    (herr : s.error_message = none) (hq : w2QueryForPubmed s ≠ "") :
    ∃ fs, w2_fetch_information_node env s = .ok fs ∧
      fs.pubmed_research_results =
        some (w2PubmedStore (env.pubmedInvoke (w2QueryForPubmed s))
          (w2QueryForPubmed s)) := by
  unfold w2_fetch_information_node
  rw [herr]
  dsimp only
  split
  · rename_i hcond
    simp [optStrTruthy] at hcond
  · split
    · rename_i h
      rw [htools] at h
      simp at h
    · split
      · rename_i h
        rw [Bool.and_eq_true] at h
        exact absurd (of_decide_eq_true h.1) hq
      · repeat' split
        all_goals exact ⟨_, rfl, rfl⟩

theorem C4_amended_witness :
    ∃ fs, w2_fetch_information_node c4Env sVetting = .ok fs ∧
      fs.pubmed_research_results =
        some (w2PubmedStore (c4Env.pubmedInvoke (w2QueryForPubmed sVetting))
          (w2QueryForPubmed sVetting)) :=
  C4_amended c4Env sVetting rfl rfl rfl (by decide)

/-! ### Claim C5 -/

/-- Claim C5 counterexample: on the empty input query the preprocessing
stage records the error "User query is empty.", but the workflow does not
halt: the synthesis agent is still invoked, and when it returns text (here
"Hello") the final answer is that text plus the disclaimer -- it does not
state that the request could not be processed and does not quote the
accumulated error. -/
theorem C5_counterexample :
    ∃ fs, runHealthInfo c5Env ⟨"", false, none⟩ = .ok fs ∧
      fs.error_message = some "User query is empty." ∧
      fs.synthesized_answer = some ("Hello" ++ w2Disclaimer) ∧
      pyIn "User query is empty." (fs.synthesized_answer.getD "") = false :=
  ⟨_, rfl, rfl, rfl, rfl⟩

/-- Claim C5 amended: on the empty input query the preprocessing stage
records the accumulated error "User query is empty." and downstream
fetching is never performed (both result slots keep their initial values
and the run is independent of the two tool-invocation functions), but the
workflow does not halt before synthesis: the final answer quotes the
accumulated error in a could-not-generate message exactly when the
synthesis agent returns no text. -/
theorem C5_amended (env : W2Env) (b : Bool) (c : Option String)
    (hcreate : env.synthCreate = none)
    (hresp : ∀ p, env.synthInvoke p = .resp "") :
    (w2_preprocess_query_node (w2_init_state ⟨"", b, c⟩)).error_message =
      some "User query is empty." ∧
    (∀ f g, runHealthInfo { env with fdaInvoke := f, pubmedInvoke := g }
        ⟨"", b, c⟩ = runHealthInfo env ⟨"", b, c⟩) ∧
    ∃ fs, runHealthInfo env ⟨"", b, c⟩ = .ok fs ∧
      fs.fda_info_result = none ∧
      fs.pubmed_research_results = some [] ∧
      pyIn "User query is empty." (fs.synthesized_answer.getD "") = true ∧
      pyIn "could not generate a detailed response"
        (fs.synthesized_answer.getD "") = true := by
  have hrun : runHealthInfo env ⟨"", b, c⟩ =
      w2_synthesize_and_vet_node env
        { user_query := "", is_misinfo_check := b, claim_to_check := c,
          search_query_for_tools := none, fda_info_result := none,
          pubmed_research_results := some [], extracted_drug_name := none,
          synthesized_answer := none, vetting_conclusion := none,
          error_message := some "User query is empty." } := rfl
  refine ⟨rfl, fun f g => rfl, ?_⟩
  rw [hrun]
  unfold w2_synthesize_and_vet_node
  dsimp only
  rw [hcreate]
  dsimp only
  rw [hresp]
  dsimp only
  exact ⟨_, rfl, rfl, rfl, rfl, rfl⟩

theorem C5_amended_witness :
    (w2_preprocess_query_node (w2_init_state ⟨"", false, none⟩)).error_message
      = some "User query is empty." ∧
    ∃ fs, runHealthInfo w2EnvBase ⟨"", false, none⟩ = .ok fs ∧
      fs.fda_info_result = none ∧
      fs.pubmed_research_results = some [] ∧
      pyIn "User query is empty." (fs.synthesized_answer.getD "") = true ∧
      pyIn "could not generate a detailed response"
        (fs.synthesized_answer.getD "") = true :=
  ⟨(C5_amended w2EnvBase false none rfl (fun _ => rfl)).1,
   (C5_amended w2EnvBase false none rfl (fun _ => rfl)).2.2⟩

/-! ### Claim C6 -/

/-- Claim C6: the context assembler never silently drops an attempted
source.  When the literature slot carries an error record the assembled
parts contain the explicit issue-retrieving note verbatim; when the entity
adapter succeeded the OpenFDA section is present; when no entity was
extracted and no FDA fetch was triggered every assembled part is a
PubMed-sourced part (the FDA source is omitted without annotation); and
whenever the synthesis stage completes it has produced a non-empty
answer. -/
theorem C6_assembler (env : W2Env) (s s2 : HealthInfoWorkflowState)
    (l : List JDict) (fda : JDict)
    (hpub : s.pubmed_research_results = some l) (hl : l ≠ [])
    (herr : l.any (fun r => jtruthy (jget r "error")) = true)
    (hfda : s.fda_info_result = some fda) (hfdane : fda ≠ ([] : JDict))
    (hfdaok : jtruthy (jget fda "error") = false)
    (h2a : optStrTruthy s2.extracted_drug_name = false)
    (h2b : s2.fda_info_result = none) :
    (("PubMed Research Highlights: There was an issue retrieving or processing PubMed articles, or no articles found. Data: " ++
        dumpJDictList l 0) ∈ w2ContextParts s) ∧
    (("OpenFDA Information:\n" ++ dumpJDict (w2FdaContextDict fda) 0) ∈
      w2ContextParts s) ∧
    (∀ p ∈ w2ContextParts s2,
       startsWithS p "PubMed Research Highlights" = true) ∧
    (∀ fs, w2_synthesize_and_vet_node env s = .ok fs →
       ∃ a, fs.synthesized_answer = some a ∧ a ≠ "") := by
  have hparts : w2ContextParts s =
      ["OpenFDA Information:\n" ++ dumpJDict (w2FdaContextDict fda) 0,
       "PubMed Research Highlights: There was an issue retrieving or processing PubMed articles, or no articles found. Data: " ++
         dumpJDictList l 0] := by
    unfold w2ContextParts
    rw [hfda, hpub]
    dsimp only
    rw [hfdaok]
    simp [hfdane, hl, herr]
  refine ⟨?_, ?_, ?_, fun fs h => w2SynthAnswers env s fs h⟩
  · rw [hparts]
    simp
  · rw [hparts]
    simp
  · intro p hp
    unfold w2ContextParts at hp
    rw [h2b] at hp
    simp only [h2a, Bool.false_eq_true, if_false, List.nil_append] at hp
    split at hp
    · split at hp
      · simp at hp
        subst hp
        rfl
      · simp at hp
    · split at hp
      · simp at hp
        subst hp
        rfl
      · simp at hp
        subst hp
        rfl

theorem C6_assembler_witness :
    (("PubMed Research Highlights: There was an issue retrieving or processing PubMed articles, or no articles found. Data: " ++
        dumpJDictList [[("error", JVal.jstr "timeout")]] 0) ∈
      w2ContextParts sErrSlots) ∧
    (("OpenFDA Information:\n" ++
        dumpJDict (w2FdaContextDict
          [("drug_name_queried", JVal.jstr "metformin"),
           ("brand_name", JVal.jlist ["Glucophage"])]) 0) ∈
      w2ContextParts sErrSlots) :=
  ⟨(C6_assembler w2EnvBase sErrSlots sNoEntity _ _ rfl (by decide) (by decide)
      rfl (by decide) (by decide) rfl rfl).1,
   (C6_assembler w2EnvBase sErrSlots sNoEntity _ _ rfl (by decide) (by decide)
      rfl (by decide) (by decide) rfl rfl).2.1⟩

/-! ### Claim C7 -/

lemma w2Extract_bounds (q : String) :
    ∀ (kws : List String) (d : String),
      w2ExtractFromKeywords q kws = some d → 3 < d.length ∧ d.length < 30 := by
  intro kws
  induction kws with
  | nil =>
      intro d h
      simp [w2ExtractFromKeywords] at h
  | cons kw rest ih =>
      intro d h
      unfold w2ExtractFromKeywords at h
      split at h
      · dsimp only at h
        split at h
        · rename_i hguard
          injection h with h
          subst h
          rw [Bool.and_eq_true, decide_eq_true_eq, decide_eq_true_eq] at hguard
          exact hguard
        · exact ih d h
      · exact ih d h

/-- Claim C7 counterexample: the trigger-phrase path applies no
alphanumeric-only check -- the query "tell me about co-codamol" yields the
candidate entity "co-codamol", which is not alphanumeric, because only the
length bound (strictly between 3 and 30) is enforced on this path. -/
theorem C7_counterexample :
    (w2_preprocess_query_node (w2_init_state
        ⟨"tell me about co-codamol", false, none⟩)).extracted_drug_name =
      some "co-codamol" ∧
    pyIsAlnum "co-codamol" = false ∧
    3 < ("co-codamol" : String).length ∧ ("co-codamol" : String).length < 30 :=
  ⟨rfl, rfl, by decide, by decide⟩

/-- Claim C7 amended: the trigger-phrase path extracts the two-token window
candidate only if its length is strictly greater than 3 and strictly less
than 30 (no alphanumeric check on this path); when no trigger phrase
qualifies, the whole query is taken as the candidate only if it has at most
two words and is alphanumeric. -/
theorem C7_amended :
    (∀ q d, w2ExtractFromKeywords q drug_keywords = some d →
        3 < d.length ∧ d.length < 30) ∧
    (∀ q d, w2WholeQueryCandidate q = some d →
        (pySplitWs q).length ≤ 2 ∧ pyIsAlnum d = true) := by
  constructor
  · intro q d h
    exact w2Extract_bounds q drug_keywords d h
  · intro q d h
    unfold w2WholeQueryCandidate at h
    split at h
    · rename_i hle
      dsimp only at h
      split at h
      · rename_i hcond
        injection h with h
        subst h
        rw [Bool.and_eq_true] at hcond
        exact ⟨hle, hcond.1⟩
      · exact absurd h (by simp)
    · exact absurd h (by simp)

theorem C7_amended_witness :
    (3 < ("co-codamol" : String).length ∧ ("co-codamol" : String).length < 30) ∧
    ((pySplitWs "metformin?").length ≤ 2 ∧ pyIsAlnum "metformin" = true) :=
  ⟨C7_amended.1 "tell me about co-codamol" "co-codamol" rfl,
   C7_amended.2 "metformin?" "metformin" rfl⟩

/-! ### Claim C8 -/

/-- Claim C8: determinism / idempotence.  Two runs of the same workflow on
identical initial input, with the external collaborators (adapters, agents,
parsers) fixed to identical deterministic outputs, yield a byte-identical
assembled context string (health-info workflow) and a byte-identical final
report (template-synthesis outbreak workflow): a run is a pure function of
the initial input and the collaborator environment. -/
theorem C8_determinism (e1 e2 : W2Env) (i1 i2 : W2Input) (o1 o2 : W1Env)
    (r1 r2 : Option String) (he : e1 = e2) (hi : i1 = i2) (ho : o1 = o2)
    (hraw : r1 = r2) :
    w2AssembledContext e1 i1 = w2AssembledContext e2 i2 ∧
    runOutbreak o1 r1 = runOutbreak o2 r2 := by
  subst he
  subst hi
  subst ho
  subst hraw
  exact ⟨rfl, rfl⟩

theorem C8_determinism_witness :
    w2AssembledContext w2EnvBase ⟨"aspirin", false, none⟩ =
      w2AssembledContext w2EnvBase ⟨"aspirin", false, none⟩ ∧
    runOutbreak w1EnvBase (some "reports of fever and cough") =
      runOutbreak w1EnvBase (some "reports of fever and cough") :=
  C8_determinism w2EnvBase w2EnvBase ⟨"aspirin", false, none⟩
    ⟨"aspirin", false, none⟩ w1EnvBase w1EnvBase
    (some "reports of fever and cough") (some "reports of fever and cough")
    rfl rfl rfl rfl

/-! ### Claim C9 -/

/-- Claim C9: frame property.  Every HealthInfo stage after initialization
-- preprocessing, LLM refinement, fetch and synthesis -- leaves the input
fields unchanged: the preprocessing stage returns, and each fallible stage
that completes returns, a state whose `user_query`, `is_misinfo_check` and
`claim_to_check` fields equal those of its input state, for every state and
every collaborator environment. -/
theorem C9_frame (env : W2Env) (s : HealthInfoWorkflowState) :
    ((w2_preprocess_query_node s).user_query = s.user_query ∧
     (w2_preprocess_query_node s).is_misinfo_check = s.is_misinfo_check ∧
     (w2_preprocess_query_node s).claim_to_check = s.claim_to_check) ∧
    (∀ s2, w2_llm_query_refinement_node env s = .ok s2 →
       s2.user_query = s.user_query ∧
       s2.is_misinfo_check = s.is_misinfo_check ∧
       s2.claim_to_check = s.claim_to_check) ∧
    (∀ s2, w2_fetch_information_node env s = .ok s2 →
       s2.user_query = s.user_query ∧
       s2.is_misinfo_check = s.is_misinfo_check ∧
       s2.claim_to_check = s.claim_to_check) ∧
    (∀ s2, w2_synthesize_and_vet_node env s = .ok s2 →
       s2.user_query = s.user_query ∧
       s2.is_misinfo_check = s.is_misinfo_check ∧
       s2.claim_to_check = s.claim_to_check) :=
  ⟨⟨w2pp_uq s, w2pp_mc s, w2pp_cc s⟩,
   fun s2 h => ⟨w2rf_uq env s s2 h, w2rf_mc env s s2 h, w2rf_cc env s s2 h⟩,
   fun s2 h => ⟨w2ft_uq env s s2 h, w2ft_mc env s s2 h, w2ft_cc env s s2 h⟩,
   fun s2 h => ⟨w2sy_uq env s s2 h, w2sy_mc env s s2 h, w2sy_cc env s s2 h⟩⟩

theorem C9_frame_witness :
    (w2_preprocess_query_node sVetting).user_query = sVetting.user_query ∧
    ∃ s2, w2_synthesize_and_vet_node c2Env sVetting = .ok s2 ∧
      s2.user_query = sVetting.user_query ∧
      s2.claim_to_check = sVetting.claim_to_check :=
  ⟨(C9_frame c2Env sVetting).1.1,
   ⟨_, rfl, ((C9_frame c2Env sVetting).2.2.2 _ rfl).1,
    ((C9_frame c2Env sVetting).2.2.2 _ rfl).2.2⟩⟩

/-! ### Claim C10 -/

lemma analyzeSymptoms_mem (t : String) :
    ∀ x ∈ (analyzeSymptomsCore t).symptoms_detected,
      x ∈ symptom_keywords ∨ x = generalConcernSignal := by
  intro x hx
  unfold analyzeSymptomsCore at hx
  dsimp only at hx
  rw [List.mem_dedup] at hx
  split at hx
  · simp at hx
    exact Or.inr hx
  · exact Or.inl (List.mem_filter.mp hx).1

/-- Claim C10: for every string input -- including the empty string -- the
symptom-analysis tool returns the well-formed two-field record with no
error key, the detected list is duplicate-free and every element is drawn
from the fixed symptom-keyword list or is the generic concern signal; an
error record is returned exactly when the input is not a string. -/
theorem C10_symptom_tool :
    (∀ t : String,
       jget (tool_analyze_text_for_symptoms (.pstr t)) "error" = none ∧
       tool_analyze_text_for_symptoms (.pstr t) =
         [("symptoms_detected",
            .jlist (analyzeSymptomsCore t).symptoms_detected),
          ("original_text_preview",
            .jstr (analyzeSymptomsCore t).original_text_preview)] ∧
       (analyzeSymptomsCore t).symptoms_detected.Nodup ∧
       (∀ x ∈ (analyzeSymptomsCore t).symptoms_detected,
          x ∈ symptom_keywords ∨ x = generalConcernSignal)) ∧
    (∀ r : String, tool_analyze_text_for_symptoms (.nonstr r) =
       [("error", .jstr "Invalid input: \x27text\x27 must be a string.")]) := by
  constructor
  · intro t
    refine ⟨rfl, rfl, ?_, analyzeSymptoms_mem t⟩
    unfold analyzeSymptomsCore
    dsimp only
    exact List.nodup_dedup _
  · intro r
    rfl

theorem C10_symptom_tool_witness :
    tool_analyze_text_for_symptoms (.nonstr "123") =
      [("error", .jstr "Invalid input: \x27text\x27 must be a string.")] ∧
    ("fever" ∈ symptom_keywords ∨ "fever" = generalConcernSignal) :=
  ⟨C10_symptom_tool.2 "123",
   (C10_symptom_tool.1 "patient reports high fever today").2.2.2 "fever"
     (by decide)⟩
